import Mathlib

/-
  Verification of the TauLabs PathManager module
  (flight/Modules/PathManager/pathmanager.c).

  The development shallowly embeds the path-segment state machine of the
  module: the per-tick arc progress tracker (lines 244-267), the goal
  proximity gate (line 273), the advance / timeout / overshoot dispatch
  (lines 294-307), the segment advancer (advanceSegment, lines 316-393),
  the goal condition evaluator (checkGoalCondition, lines 398-440) and the
  overshoot monitor (checkOvershoot, lines 446-478).

  Floating point values are idealized as real numbers.  External geometry
  library functions that the module calls but that are not part of this
  file set (find_arc_center, measure_arc_rad, half_plane_goal_test,
  b_ball_goal_test, from paths_library / path_managers) are taken as
  parameters of the embedding, bundled in the GeometryLib structure, so
  every theorem below holds for every behavior of those externals.
  The UAVObject instance store holding the PathSegmentDescriptor sequence
  is embedded as a Lean list: instance get-by-index is get?, and a failed
  get (index at or beyond the instance count) leaves the destination
  buffer untouched, exactly as UAVObjInstGet does on the target.
-/

open Classical

/-- A three component locus, as the float[3] SwitchingLocus of the
PathSegmentDescriptor UAVObject (North, East, Down). -/
structure Locus3 where
  north : ℝ
  east : ℝ
  down : ℝ


/-- The ArcRank field options of PathSegmentDescriptor
(PATHSEGMENTDESCRIPTOR_ARCRANK_MINOR / MAJOR). -/
inductive ArcRankOption
  | MINOR
  | MAJOR
deriving DecidableEq

/-- PathSegmentDescriptorData: one motion descriptor, as read by index
from the externally owned PathSegmentDescriptor instance sequence. -/
structure PathSegmentDescriptorData where
  SwitchingLocus : Locus3
  FinalVelocity : ℝ
  PathCurvature : ℝ
  NumberOfOrbits : ℕ
  ArcRank : ArcRankOption

/-- The Status field options of PathManagerStatus.  The source file only
ever writes InProgress, TimedOut and Overshoot; Completed is modelled
from the spec, which lists it as the published terminal value
(status enum {InProgress, TimedOut, Overshoot, Completed}). -/
inductive PMStatusOption
  | InProgress
  | TimedOut
  | Overshoot
  | Completed
deriving DecidableEq

/-- PathManagerStatusData, the published status UAVObject. -/
structure PathManagerStatusData where
  ActiveSegment : ℕ
  PathCounter : ℕ
  Status : PMStatusOption
  Timeout : ℤ

/-- The PreviousLocus snapshot owned by the segment advancer
(struct PreviousLocus at lines 61-65 of the source). -/
structure PreviousLocusData where
  Position : Locus3
  Velocity : ℝ

/-- The SwitchingStrategy field options of PathManagerSettings
(PATHMANAGERSETTINGS_SWITCHINGSTRATEGY_HALFPLANE / BBALL). -/
inductive SwitchingStrategyOption
  | HALFPLANE
  | BBALL
deriving DecidableEq

/-- PathManagerSettingsData, the cached settings. -/
structure PathManagerSettingsData where
  SwitchingStrategy : SwitchingStrategyOption
  HalfPlaneAdvanceTiming : ℝ
  BBallThresholdDistance : ℝ

/-- FixedWingAirspeedsData: only the BestClimbRateSpeed field is read by
the module (as the reference airspeed). -/
structure FixedWingAirspeedsData where
  BestClimbRateSpeed : ℝ

/-- External geometry library functions called by the module but defined
outside it (paths_library.h / path_managers.h).  They are parameters of
the embedding; every theorem below is proved for all of them.
find_arc_center returns some center on CENTER_FOUND and none otherwise;
measure_arc_rad is the three point angle measurement in radians. -/
structure GeometryLib where
  find_arc_center : Locus3 → Locus3 → ℝ → Bool → Bool → Option (ℝ × ℝ)
  measure_arc_rad : ℝ × ℝ → ℝ × ℝ → ℝ × ℝ → ℝ
  half_plane_goal_test : ℝ × ℝ → ℝ → ℝ → Locus3 → PathSegmentDescriptorData →
    PathSegmentDescriptorData → ℝ → ℝ → Bool
  b_ball_goal_test : ℝ × ℝ → Locus3 → ℝ → Bool

/-- The module state: the file scope statics of pathmanager.c that the
per-tick pipeline reads and writes, together with the published status. -/
structure PMState where
  previousLocus : PreviousLocusData
  pathManagerStatus : PathManagerStatusData
  pathSegmentDescriptor_current : PathSegmentDescriptorData
  angularDistanceToComplete_D : ℝ
  angularDistanceCompleted_D : ℝ
  oldPosition_NE : ℝ × ℝ
  arcCenter_NE : ℝ × ℝ
  arc_has_center : Bool
  theta_roundoff_trim_count : ℕ
  segmentTimer : ℕ

/-- Modelled from the spec: the sign of the curvature is the turn
direction.  The misc_math SIGN macro maps negative values to -1 and all
others (including 0) to 1; every use below either has nonzero argument
or multiplies the result by zero, so the convention at 0 is immaterial. -/
noncomputable def SIGN (x : ℝ) : ℝ := if x < 0 then -1 else 1

/-- RAD2DEG conversion constant of physical_constants.h. -/
noncomputable def RAD2DEG : ℝ := 180 / Real.pi

/-- DEG2RAD conversion constant of physical_constants.h. -/
noncomputable def DEG2RAD : ℝ := Real.pi / 180

/-- ANGULAR_PROXIMITY_THRESHOLD constant (line 57 of the source). -/
def ANGULAR_PROXIMITY_THRESHOLD : ℝ := 30

/-- Modelled from the spec: misc_math bound_min_max clamps a value to
the closed interval between the two bounds. -/
def bound_min_max (val lo hi : ℤ) : ℤ :=
  if val < lo then lo else if val > hi then hi else val

/-- Modelled from the spec: misc_math circular_modulus_deg reduces an
angle in degrees to the interval (-180, 180] modulo 360. -/
noncomputable def circular_modulus_deg (x : ℝ) : ℝ :=
  x - 360 * ⌈(x - 180) / 360⌉

/-- From the source (advanceSegment lines 338-344): the arc center
resolution call made when the newly loaded segment is curved, with
radius 1/curvature, the turn direction given by the curvature sign and
the minor arc flag by the ArcRank field; none models the non
CENTER_FOUND results. -/
noncomputable def advArcRes (lib : GeometryLib)
    (past cur : PathSegmentDescriptorData) : Option (ℝ × ℝ) :=
  if cur.PathCurvature ≠ 0 then
    lib.find_arc_center past.SwitchingLocus cur.SwitchingLocus
      (1 / cur.PathCurvature)
      (decide (cur.PathCurvature > 0))
      (decide (cur.ArcRank = ArcRankOption.MINOR))
  else none

/-- From the source (advanceSegment lines 337-372): the angular distance
to complete computed on an advance.  For a straight segment it is 0;
for an arc whose center resolution failed it is 0 (the degraded case);
for an arc with a found center it is the three point angle from the
previous locus to the new switching locus around the center, converted
to degrees, wrapped by 360 toward the curvature sign when the raw sign
disagrees, plus sign(curvature) times NumberOfOrbits times 360. -/
noncomputable def advAngularDistanceToComplete (lib : GeometryLib)
    (past cur : PathSegmentDescriptorData) : ℝ :=
  if cur.PathCurvature ≠ 0 then
    match advArcRes lib past cur with
    | some ctr =>
        let tmpAngle0 := lib.measure_arc_rad
          (past.SwitchingLocus.north, past.SwitchingLocus.east)
          (cur.SwitchingLocus.north, cur.SwitchingLocus.east) ctr * RAD2DEG
        let tmpAngle := if SIGN cur.PathCurvature * tmpAngle0 < 0
          then tmpAngle0 + 360 * SIGN cur.PathCurvature else tmpAngle0
        SIGN cur.PathCurvature * (cur.NumberOfOrbits : ℝ) * 360 + tmpAngle
    | none => 0
  else 0

/-- From the source (advanceSegment lines 374-386): the path length s
(straight line Euclidean distance, or angular distance in radians over
curvature) and the timeout computed from it: ceil of distance over the
final velocity, clamped to the uint16 range, or the maximum
representable value 65535 when the final velocity is not positive. -/
noncomputable def advTimeoutValue (lib : GeometryLib)
    (past cur : PathSegmentDescriptorData) : ℤ :=
  let s : ℝ :=
    if cur.PathCurvature = 0 then
      Real.sqrt ((cur.SwitchingLocus.north - past.SwitchingLocus.north) ^ 2 +
                 (cur.SwitchingLocus.east - past.SwitchingLocus.east) ^ 2)
    else
      advAngularDistanceToComplete lib past cur * DEG2RAD / cur.PathCurvature
  if cur.FinalVelocity > 0 then
    bound_min_max ⌈|s| / cur.FinalVelocity⌉ 0 65535
  else 65535

/-- From the source, advanceSegment (lines 316-393): snapshot the end of
the segment currently referenced by ActiveSegment into previousLocus,
increment ActiveSegment, publish Status=InProgress, load the descriptor
now at ActiveSegment (a failed instance get leaves the global
pathSegmentDescriptor_current stale, the source ignores the return
value), reset angularDistanceCompleted_D to 0, resolve the arc center
and angular distance for curved segments via the helpers above, and
compute the timeout from the path length and final velocity.  The
uninitialized stack local pathSegmentDescriptor_past is represented by
the junk parameter (it is only visible when the instance get for the
old ActiveSegment fails); now stands for xTaskGetTickCount. -/
noncomputable def advanceSegment (lib : GeometryLib)
    (descriptors : List PathSegmentDescriptorData)
    (junk : PathSegmentDescriptorData) (now : ℕ) (st : PMState) : PMState :=
  let past := (descriptors.get? st.pathManagerStatus.ActiveSegment).getD junk
  let prev : PreviousLocusData :=
    { Position := past.SwitchingLocus, Velocity := past.FinalVelocity }
  let idx := st.pathManagerStatus.ActiveSegment + 1
  let cur := (descriptors.get? idx).getD st.pathSegmentDescriptor_current
  let arcRes : Option (ℝ × ℝ) := advArcRes lib past cur
  let angToComplete : ℝ := advAngularDistanceToComplete lib past cur
  let newOldPos : ℝ × ℝ :=
    match arcRes with
    | some _ => (prev.Position.north, prev.Position.east)
    | none => st.oldPosition_NE
  let newCenter : ℝ × ℝ :=
    match arcRes with
    | some ctr => ctr
    | none => st.arcCenter_NE
  let newHasCenter : Bool :=
    if cur.PathCurvature ≠ 0 then arcRes.isSome else st.arc_has_center
  let timeout : ℤ := advTimeoutValue lib past cur
  { previousLocus := prev
    pathManagerStatus :=
      { ActiveSegment := idx
        PathCounter := st.pathManagerStatus.PathCounter
        Status := PMStatusOption.InProgress
        Timeout := timeout }
    pathSegmentDescriptor_current := cur
    angularDistanceToComplete_D := angToComplete
    angularDistanceCompleted_D := 0
    oldPosition_NE := newOldPos
    arcCenter_NE := newCenter
    arc_has_center := newHasCenter
    theta_roundoff_trim_count := st.theta_roundoff_trim_count
    segmentTimer := now }

/-- Claim C2: every execution of the segment advancer increments
ActiveSegment by exactly 1, so the index strictly increases by 1 per
advance, and immediately after the advance angularDistanceCompleted_D is
exactly 0. -/
theorem C2_advance_increments_and_resets (lib : GeometryLib)
    (descriptors : List PathSegmentDescriptorData)
    (junk : PathSegmentDescriptorData) (now : ℕ) (st : PMState) :
    (advanceSegment lib descriptors junk now st).pathManagerStatus.ActiveSegment
        = st.pathManagerStatus.ActiveSegment + 1 ∧
    (advanceSegment lib descriptors junk now st).angularDistanceCompleted_D = 0 := by
  constructor <;> rfl

/-- From the source, the arc progress tracker (lines 244-267 of the main
loop): for a segment with nonzero curvature and a found arc center, add
the three point angle from the last sampled position to the new position
around the center to angularDistanceCompleted_D and update the last
sampled position; the roundoff trim counter is tested against the mask
0x8F before being post-incremented, and on a hit it is reset to 0 and
the reference angle from the segment start corrects the accumulator by a
circular modulus difference.  The counter is a uint8, so the increment
is taken modulo 256. -/
noncomputable def updateArcMeasure (lib : GeometryLib) (newPosition_NE : ℝ × ℝ)
    (st : PMState) : PMState :=
  if st.pathSegmentDescriptor_current.PathCurvature ≠ 0 then
    if st.arc_has_center then
      let acc := st.angularDistanceCompleted_D +
        lib.measure_arc_rad st.oldPosition_NE newPosition_NE st.arcCenter_NE * RAD2DEG
      if st.theta_roundoff_trim_count &&& 0x8F = 0 then
        let referenceTheta_D := lib.measure_arc_rad
          (st.previousLocus.Position.north, st.previousLocus.Position.east)
          newPosition_NE st.arcCenter_NE * RAD2DEG
        let error_D := circular_modulus_deg (referenceTheta_D - acc)
        { st with
          angularDistanceCompleted_D := acc + error_D
          oldPosition_NE := newPosition_NE
          theta_roundoff_trim_count := 0 }
      else
        { st with
          angularDistanceCompleted_D := acc
          oldPosition_NE := newPosition_NE
          theta_roundoff_trim_count := (st.theta_roundoff_trim_count + 1) % 256 }
    else st
  else st

/-- Iterated arc progress tracking: the state after n consecutive main
loop ticks whose tracker stage sampled the positions pos 0, ..., pos
(n-1), with no segment advance in between. -/
noncomputable def trackTrace (lib : GeometryLib) (pos : ℕ → ℝ × ℝ)
    (st : PMState) : ℕ → PMState
  | 0 => st
  | n + 1 => updateArcMeasure lib (pos n) (trackTrace lib pos st n)

/-- From the source, the condition of line 257 under which the periodic
roundoff drift correction executes on a tracking tick: the segment is an
arc with a found center and the trim counter hits the 0x8F mask. -/
def driftCorrectionFires (st : PMState) : Prop :=
  st.pathSegmentDescriptor_current.PathCurvature ≠ 0 ∧
  st.arc_has_center = true ∧
  st.theta_roundoff_trim_count &&& 0x8F = 0

/-- From the source, the goal proximity gate of line 273: the exact goal
condition test runs only when the signed remaining angular distance is
below ANGULAR_PROXIMITY_THRESHOLD. -/
noncomputable def goalProximityGate (st : PMState) : Prop :=
  SIGN st.pathSegmentDescriptor_current.PathCurvature *
    (st.angularDistanceToComplete_D - st.angularDistanceCompleted_D) <
    ANGULAR_PROXIMITY_THRESHOLD

/-- From the source, checkGoalCondition (lines 398-440): under the half
plane strategy the test only runs when a descriptor exists after the
active one (ActiveSegment + 1 below the instance count); with no next
switching locus the active segment is the final waypoint and the
function returns with the flag still false.  Under the b-ball strategy
the distance test against the switching locus of the current segment
runs unconditionally. -/
def checkGoalCondition (lib : GeometryLib) (settings : PathManagerSettingsData)
    (airspeeds : FixedWingAirspeedsData)
    (descriptors : List PathSegmentDescriptorData)
    (junk : PathSegmentDescriptorData) (position_NE : ℝ × ℝ) (st : PMState) : Bool :=
  match settings.SwitchingStrategy with
  | SwitchingStrategyOption.HALFPLANE =>
      if st.pathManagerStatus.ActiveSegment + 1 < descriptors.length then
        lib.half_plane_goal_test position_NE
          st.angularDistanceCompleted_D st.angularDistanceToComplete_D
          st.previousLocus.Position st.pathSegmentDescriptor_current
          ((descriptors.get? (st.pathManagerStatus.ActiveSegment + 1)).getD junk)
          settings.HalfPlaneAdvanceTiming airspeeds.BestClimbRateSpeed
      else false
  | SwitchingStrategyOption.BBALL =>
      lib.b_ball_goal_test position_NE
        st.pathSegmentDescriptor_current.SwitchingLocus
        settings.BBallThresholdDistance

/-- From the source, the condition of line 466 under which checkOvershoot
(lines 446-478) declares an overshoot: the active segment is a straight
line, and the dot product of the vector from the extended target to the
vehicle position with the path direction vector is positive, where the
extended target is the switching locus pushed along the unit path
direction by five seconds of travel at the reference airspeed. -/
def overshootTestFires (airspeeds : FixedWingAirspeedsData)
    (position_NE : ℝ × ℝ) (st : PMState) : Prop :=
  st.pathSegmentDescriptor_current.PathCurvature = 0 ∧
  (let c : ℝ × ℝ := (st.pathSegmentDescriptor_current.SwitchingLocus.north,
                     st.pathSegmentDescriptor_current.SwitchingLocus.east)
   let r := st.previousLocus.Position
   let q : ℝ × ℝ := (c.1 - r.north, c.2 - r.east)
   let q_mag := Real.sqrt (q.1 ^ 2 + q.2 ^ 2 + 0 ^ 2)
   let c1 : ℝ × ℝ := (c.1 + q.1 / q_mag * airspeeds.BestClimbRateSpeed * 5,
                      c.2 + q.2 / q_mag * airspeeds.BestClimbRateSpeed * 5)
   (position_NE.1 - c1.1) * q.1 + (position_NE.2 - c1.2) * q.2 > 0)

/-- From the source, the state effect of checkOvershoot: publish
Status=Overshoot when the overshoot test fires, otherwise leave the
state untouched. -/
noncomputable def checkOvershoot (airspeeds : FixedWingAirspeedsData)
    (position_NE : ℝ × ℝ) (st : PMState) : PMState :=
  if overshootTestFires airspeeds position_NE st then
    { st with pathManagerStatus :=
        { st.pathManagerStatus with Status := PMStatusOption.Overshoot } }
  else st

/-- From the source, the advanceSegment_flag computed by lines 241-274 of
an active-program tick: the goal proximity gate passes on the tracked
state and the goal condition evaluator returns true. -/
noncomputable def advanceSegmentFlag (lib : GeometryLib)
    (settings : PathManagerSettingsData) (airspeeds : FixedWingAirspeedsData)
    (descriptors : List PathSegmentDescriptorData)
    (junk : PathSegmentDescriptorData) (position_NE : ℝ × ℝ) (st : PMState) : Prop :=
  goalProximityGate (updateArcMeasure lib position_NE st) ∧
  checkGoalCondition lib settings airspeeds descriptors junk position_NE
    (updateArcMeasure lib position_NE st) = true

/-- From the source, the timeout expiry condition of line 297: the ticks
elapsed since the segment timer reset exceed Timeout seconds (tick times
are in milliseconds, portTICK_RATE_MS is 1 on the target). -/
def timeoutExpired (st : PMState) (lastSysTime : ℕ) : Prop :=
  st.pathManagerStatus.Timeout * 1000 < ((lastSysTime - st.segmentTimer : ℕ) : ℤ)

/-- From the source, the overshoot cadence condition of line 303: more
than OVERSHOOT_TIMER_MS (1000 ms) elapsed since the overshoot timer was
last reset. -/
def overshootDue (lastSysTime overshootTimer : ℕ) : Prop :=
  1000 < lastSysTime - overshootTimer

/-- The mutually exclusive outcomes of the dispatch at lines 294-307 of
the main loop: a segment advance, the timeout flag evaluation, the
overshoot flag evaluation, or none of the three. -/
inductive TickBranch
  | advance
  | timeoutFlag
  | overshootFlag
  | idle
deriving DecidableEq

/-- From the source, the branch selected by the if / else-if chain at
lines 294-307 on a tick with an active program: an advance when the
advance flag is set, otherwise the timeout flag evaluation when the
segment timer has expired, otherwise the overshoot flag evaluation when
the overshoot timer is due, otherwise none. -/
noncomputable def pathManagerTickBranch (lib : GeometryLib)
    (settings : PathManagerSettingsData) (airspeeds : FixedWingAirspeedsData)
    (descriptors : List PathSegmentDescriptorData)
    (junk : PathSegmentDescriptorData) (position_NE : ℝ × ℝ)
    (lastSysTime overshootTimer : ℕ) (st : PMState) : TickBranch :=
  if advanceSegmentFlag lib settings airspeeds descriptors junk position_NE st then
    TickBranch.advance
  else if timeoutExpired (updateArcMeasure lib position_NE st) lastSysTime then
    TickBranch.timeoutFlag
  else if overshootDue lastSysTime overshootTimer then
    TickBranch.overshootFlag
  else
    TickBranch.idle

/-- From the source, one tick of the main loop while a guidance program
is active (lines 241-307, with the activation branch at lines 278-290
not taken): run the arc progress tracker, then exactly the branch
selected by pathManagerTickBranch. -/
noncomputable def pathManagerTick (lib : GeometryLib)
    (settings : PathManagerSettingsData) (airspeeds : FixedWingAirspeedsData)
    (descriptors : List PathSegmentDescriptorData)
    (junk : PathSegmentDescriptorData) (position_NE : ℝ × ℝ)
    (lastSysTime overshootTimer : ℕ) (st : PMState) : PMState :=
  let st1 := updateArcMeasure lib position_NE st
  match pathManagerTickBranch lib settings airspeeds descriptors junk position_NE
      lastSysTime overshootTimer st with
  | TickBranch.advance => advanceSegment lib descriptors junk lastSysTime st1
  | TickBranch.timeoutFlag =>
      { st1 with pathManagerStatus :=
          { st1.pathManagerStatus with Status := PMStatusOption.TimedOut } }
  | TickBranch.overshootFlag => checkOvershoot airspeeds position_NE st1
  | TickBranch.idle => st1

/-- Follows the spec wording for the arc angular distance law: the raw
three point angle measurement (in degrees) is wrapped so that its sign
matches the turn direction, adding plus or minus 360 exactly when the
raw sign disagrees with the sign of the curvature. -/
noncomputable def spec_wrapToTurnDirection (curvature rawAngle_D : ℝ) : ℝ :=
  if rawAngle_D * SIGN curvature < 0 then rawAngle_D + SIGN curvature * 360
  else rawAngle_D

/-- Follows the spec wording: angularDistanceToComplete equals
sign(curvature) times the number of full orbits times 360, plus the
wrapped angle from the previous locus to the new switching locus. -/
noncomputable def spec_arcAngularDistance (curvature : ℝ) (orbits : ℕ)
    (rawAngle_D : ℝ) : ℝ :=
  SIGN curvature * (orbits : ℝ) * 360 + spec_wrapToTurnDirection curvature rawAngle_D

/-- Follows the spec wording for the segment path length: the Euclidean
distance between the previous and new switching loci for a zero
curvature segment, the angular distance converted to radians and
divided by the curvature for an arc. -/
noncomputable def spec_pathLength (prevLocus : Locus3)
    (cur : PathSegmentDescriptorData) (angularDistance_D : ℝ) : ℝ :=
  if cur.PathCurvature = 0 then
    Real.sqrt ((cur.SwitchingLocus.north - prevLocus.north) ^ 2 +
               (cur.SwitchingLocus.east - prevLocus.east) ^ 2)
  else
    angularDistance_D * DEG2RAD / cur.PathCurvature

/-- Follows the spec wording for the overshoot monitor: the target
point extended along the unit path direction (from the previous locus
to the target) by a margin of five seconds of travel at the reference
airspeed. -/
noncomputable def spec_extendedTarget (prev target : ℝ × ℝ) (airspeed : ℝ) : ℝ × ℝ :=
  let q : ℝ × ℝ := (target.1 - prev.1, target.2 - prev.2)
  let mag := Real.sqrt (q.1 ^ 2 + q.2 ^ 2)
  (target.1 + q.1 / mag * (5 * airspeed), target.2 + q.2 / mag * (5 * airspeed))

/-- Follows the spec wording: overshoot is declared exactly when the dot
product of (vehicle position minus extended target) with the path
direction vector is positive. -/
noncomputable def spec_overshootCondition (prev target p : ℝ × ℝ) (airspeed : ℝ) : Prop :=
  0 < (p.1 - (spec_extendedTarget prev target airspeed).1) * (target.1 - prev.1) +
      (p.2 - (spec_extendedTarget prev target airspeed).2) * (target.2 - prev.2)

/-- A geometry library instance whose arc center resolution always fails
and whose goal tests always decline; used to instantiate universally
quantified theorems on concrete inputs. -/
def trivialLib : GeometryLib where
  find_arc_center := fun _ _ _ _ _ => none
  measure_arc_rad := fun _ _ _ => 0
  half_plane_goal_test := fun _ _ _ _ _ _ _ _ => false
  b_ball_goal_test := fun _ _ _ => false

/-- A starting point descriptor: switching locus at the origin. -/
def descA : PathSegmentDescriptorData :=
  { SwitchingLocus := ⟨0, 0, 0⟩
    FinalVelocity := 0
    PathCurvature := 0
    NumberOfOrbits := 0
    ArcRank := ArcRankOption.MINOR }

/-- A straight segment descriptor to (100, 0) with final velocity 10,
the single segment of the concrete scenario in the spec. -/
def descB : PathSegmentDescriptorData :=
  { SwitchingLocus := ⟨100, 0, 0⟩
    FinalVelocity := 10
    PathCurvature := 0
    NumberOfOrbits := 0
    ArcRank := ArcRankOption.MINOR }

/-- The two instance descriptor sequence of the concrete single segment
program: starting point then one straight line segment. -/
def descListC1 : List PathSegmentDescriptorData := [descA, descB]

/-- The module state after the single segment program reached its last
segment: ActiveSegment references descB, the last available instance. -/
def stC1 : PMState :=
  { previousLocus := { Position := ⟨0, 0, 0⟩, Velocity := 0 }
    pathManagerStatus :=
      { ActiveSegment := 1, PathCounter := 1
        Status := PMStatusOption.InProgress, Timeout := 10 }
    pathSegmentDescriptor_current := descB
    angularDistanceToComplete_D := 0
    angularDistanceCompleted_D := 0
    oldPosition_NE := (0, 0)
    arcCenter_NE := (0, 0)
    arc_has_center := false
    theta_roundoff_trim_count := 0
    segmentTimer := 0 }

/-- Settings with the half plane switching strategy selected. -/
def settingsHP : PathManagerSettingsData :=
  { SwitchingStrategy := SwitchingStrategyOption.HALFPLANE
    HalfPlaneAdvanceTiming := 0
    BBallThresholdDistance := 1 }

/-- Reference airspeeds with BestClimbRateSpeed 10. -/
def air10 : FixedWingAirspeedsData := { BestClimbRateSpeed := 10 }

/-- Claim C3: under the half plane switching strategy, whenever no
descriptor exists after the active segment (ActiveSegment + 1 at or
beyond the instance count), the goal condition evaluator never signals
goal reached, for every vehicle position and every behavior of the
external half plane test: the vehicle holds on the final segment. -/
theorem C3_halfplane_final_waypoint_never_fires (lib : GeometryLib)
    (settings : PathManagerSettingsData) (airspeeds : FixedWingAirspeedsData)
    (descriptors : List PathSegmentDescriptorData)
    (junk : PathSegmentDescriptorData) (position_NE : ℝ × ℝ) (st : PMState)
    (hstrat : settings.SwitchingStrategy = SwitchingStrategyOption.HALFPLANE)
    (hlast : descriptors.length ≤ st.pathManagerStatus.ActiveSegment + 1) :
    checkGoalCondition lib settings airspeeds descriptors junk position_NE st = false := by
  unfold checkGoalCondition
  rw [hstrat]
  exact if_neg (by omega)

/-- Witness for C3: the concrete single segment program on its last
segment, a position at the switching locus, the half plane strategy. -/
theorem C3_witness :
    checkGoalCondition trivialLib settingsHP air10 descListC1 descA (100, 0) stC1 = false :=
  C3_halfplane_final_waypoint_never_fires trivialLib settingsHP air10 descListC1
    descA (100, 0) stC1 rfl (by norm_num [descListC1, stC1])

/-- Claim C1: on the tick on which the segment advancer runs with the
incremented ActiveSegment having no corresponding descriptor instance
(index at or beyond the available count, the program underrun case),
the source does NOT treat the condition as program completion: it
publishes Status=InProgress, not Completed, and silently keeps the
stale descriptor in pathSegmentDescriptor_current.  Evaluated here at
the concrete failing input (the two instance single segment program of
the spec scenario, advancing off its last segment). -/
theorem C1_underrun_behavior :
    descListC1.get? (stC1.pathManagerStatus.ActiveSegment + 1) = none ∧
    (advanceSegment trivialLib descListC1 descA 0 stC1).pathManagerStatus.ActiveSegment = 2 ∧
    (advanceSegment trivialLib descListC1 descA 0 stC1).pathManagerStatus.Status =
      PMStatusOption.InProgress ∧
    (advanceSegment trivialLib descListC1 descA 0 stC1).pathManagerStatus.Status ≠
      PMStatusOption.Completed ∧
    (advanceSegment trivialLib descListC1 descA 0 stC1).pathSegmentDescriptor_current =
      stC1.pathSegmentDescriptor_current := by
  refine ⟨rfl, rfl, rfl, ?_, rfl⟩
  rw [show (advanceSegment trivialLib descListC1 descA 0 stC1).pathManagerStatus.Status =
    PMStatusOption.InProgress from rfl]
  decide

/-- Projections of advanceSegment, with the past descriptor (read at the
old ActiveSegment) and the new current descriptor named. -/
theorem advanceSegment_fields (lib : GeometryLib)
    (descriptors : List PathSegmentDescriptorData)
    (junk : PathSegmentDescriptorData) (now : ℕ) (st : PMState)
    (past cur : PathSegmentDescriptorData)
    (hpast : (descriptors.get? st.pathManagerStatus.ActiveSegment).getD junk = past)
    (hcur : (descriptors.get? (st.pathManagerStatus.ActiveSegment + 1)).getD
      st.pathSegmentDescriptor_current = cur) :
    (advanceSegment lib descriptors junk now st).angularDistanceToComplete_D =
        advAngularDistanceToComplete lib past cur ∧
    (advanceSegment lib descriptors junk now st).pathManagerStatus.Timeout =
        advTimeoutValue lib past cur ∧
    (advanceSegment lib descriptors junk now st).previousLocus.Position =
        past.SwitchingLocus ∧
    (advanceSegment lib descriptors junk now st).pathSegmentDescriptor_current = cur ∧
    (advanceSegment lib descriptors junk now st).arc_has_center =
        (if cur.PathCurvature ≠ 0 then (advArcRes lib past cur).isSome
         else st.arc_has_center) := by
  subst hpast; subst hcur
  exact ⟨rfl, rfl, rfl, rfl, rfl⟩

/-- Claim C4: for every advance onto a segment with nonzero curvature
whose arc center resolves to some ctr, with raw the three point angle
in degrees from the previous locus to the new switching locus around
ctr, the published angular distance to complete equals the spec law
sign(curvature) * orbits * 360 plus the wrapped angle (raw adjusted by
plus or minus 360 exactly when its sign disagrees with the curvature
sign); and for raw in the measurement range (-180, 180] the wrapped
angle agrees in sign with the curvature (their product is
nonnegative). -/
theorem C4_arc_angular_distance_law (lib : GeometryLib)
    (descriptors : List PathSegmentDescriptorData)
    (junk : PathSegmentDescriptorData) (now : ℕ) (st : PMState)
    (past cur : PathSegmentDescriptorData) (ctr : ℝ × ℝ) (raw : ℝ)
    (hpast : (descriptors.get? st.pathManagerStatus.ActiveSegment).getD junk = past)
    (hcur : (descriptors.get? (st.pathManagerStatus.ActiveSegment + 1)).getD
      st.pathSegmentDescriptor_current = cur)
    (hc : cur.PathCurvature ≠ 0)
    (hfind : lib.find_arc_center past.SwitchingLocus cur.SwitchingLocus
      (1 / cur.PathCurvature) (decide (cur.PathCurvature > 0))
      (decide (cur.ArcRank = ArcRankOption.MINOR)) = some ctr)
    (hraw : lib.measure_arc_rad
      (past.SwitchingLocus.north, past.SwitchingLocus.east)
      (cur.SwitchingLocus.north, cur.SwitchingLocus.east) ctr * RAD2DEG = raw) :
    (advanceSegment lib descriptors junk now st).angularDistanceToComplete_D =
      spec_arcAngularDistance cur.PathCurvature cur.NumberOfOrbits raw ∧
    (-180 < raw → raw ≤ 180 →
      0 ≤ SIGN cur.PathCurvature * spec_wrapToTurnDirection cur.PathCurvature raw) := by
  constructor
  · rw [(advanceSegment_fields lib descriptors junk now st past cur hpast hcur).1]
    simp only [advAngularDistanceToComplete, advArcRes, if_pos hc, hfind, hraw]
    simp only [spec_arcAngularDistance, spec_wrapToTurnDirection]
    congr 1
    exact if_congr (by rw [mul_comm]) (by ring) rfl
  · intro h1 h2
    unfold spec_wrapToTurnDirection SIGN
    split_ifs <;> nlinarith

/-- A geometry library whose arc center resolution always succeeds at
(0, 100) and whose three point angle measurement is always pi/4 radians
(45 degrees); used to witness the arc theorems on concrete inputs. -/
noncomputable def arcLibC4 : GeometryLib where
  find_arc_center := fun _ _ _ _ _ => some (0, 100)
  measure_arc_rad := fun _ _ _ => Real.pi / 4
  half_plane_goal_test := fun _ _ _ _ _ _ _ _ => false
  b_ball_goal_test := fun _ _ _ => false

/-- An arc descriptor: curvature 1, two full orbits, minor arc. -/
def descArc : PathSegmentDescriptorData :=
  { SwitchingLocus := ⟨1, 1, 0⟩
    FinalVelocity := 1
    PathCurvature := 1
    NumberOfOrbits := 2
    ArcRank := ArcRankOption.MINOR }

/-- Program whose second instance is the arc descriptor. -/
def descListC4 : List PathSegmentDescriptorData := [descA, descArc]

/-- State about to advance from the start descriptor onto the arc. -/
def stC4 : PMState :=
  { stC1 with
    pathManagerStatus :=
      { ActiveSegment := 0, PathCounter := 1
        Status := PMStatusOption.InProgress, Timeout := 10 }
    pathSegmentDescriptor_current := descA }

/-- Witness for C4: a concrete advance onto the arc descriptor with a
found center and a raw measurement of 45 degrees. -/
theorem C4_witness :
    (advanceSegment arcLibC4 descListC4 descA 0 stC4).angularDistanceToComplete_D =
      spec_arcAngularDistance descArc.PathCurvature descArc.NumberOfOrbits 45 ∧
    0 ≤ SIGN descArc.PathCurvature * spec_wrapToTurnDirection descArc.PathCurvature 45 := by
  have h := C4_arc_angular_distance_law arcLibC4 descListC4 descA 0 stC4 descA descArc
    (0, 100) 45 rfl rfl (by norm_num [descArc]) rfl
    (by show Real.pi / 4 * RAD2DEG = 45
        rw [RAD2DEG]
        field_simp
        ring)
  exact ⟨h.1, h.2 (by norm_num) (by norm_num)⟩

/-- The clamp of misc_math written with max and min, as the spec words
the timeout law. -/
theorem bound_min_max_clamp (x : ℤ) : bound_min_max x 0 65535 = max 0 (min 65535 x) := by
  unfold bound_min_max
  split_ifs <;> omega

/-- Claim C5: for every segment advance, with s the path length of the
new segment (Euclidean distance between the previous and new switching
loci for a zero curvature segment; the published angular distance in
radians divided by the curvature for an arc) and v its final velocity:
if v > 0 the published timeout equals clamp(ceil(|s| / v), 0, 65535),
and if v = 0 it equals 65535, the maximum representable value. -/
theorem C5_timeout_law (lib : GeometryLib)
    (descriptors : List PathSegmentDescriptorData)
    (junk : PathSegmentDescriptorData) (now : ℕ) (st : PMState)
    (past cur : PathSegmentDescriptorData)
    (hpast : (descriptors.get? st.pathManagerStatus.ActiveSegment).getD junk = past)
    (hcur : (descriptors.get? (st.pathManagerStatus.ActiveSegment + 1)).getD
      st.pathSegmentDescriptor_current = cur) :
    (cur.FinalVelocity > 0 →
      (advanceSegment lib descriptors junk now st).pathManagerStatus.Timeout =
        max 0 (min 65535 ⌈|spec_pathLength past.SwitchingLocus cur
          ((advanceSegment lib descriptors junk now st).angularDistanceToComplete_D)| /
          cur.FinalVelocity⌉)) ∧
    (cur.FinalVelocity = 0 →
      (advanceSegment lib descriptors junk now st).pathManagerStatus.Timeout = 65535) := by
  have hT := (advanceSegment_fields lib descriptors junk now st past cur hpast hcur).2.1
  have hA := (advanceSegment_fields lib descriptors junk now st past cur hpast hcur).1
  constructor
  · intro hv
    rw [hA, hT]
    simp only [advTimeoutValue]
    rw [if_pos hv, bound_min_max_clamp]
    rfl
  · intro hv
    rw [hT]
    simp only [advTimeoutValue]
    rw [if_neg (by rw [hv]; exact lt_irrefl 0)]

/-- A straight segment descriptor to (3, 4) with final velocity 2: path
length 5, so the computed timeout must be ceil(5 / 2) = 3. -/
def descC5 : PathSegmentDescriptorData :=
  { SwitchingLocus := ⟨3, 4, 0⟩
    FinalVelocity := 2
    PathCurvature := 0
    NumberOfOrbits := 0
    ArcRank := ArcRankOption.MINOR }

/-- Program whose second instance is the straight 3-4-5 segment. -/
def descListC5 : List PathSegmentDescriptorData := [descA, descC5]

/-- Witness for C5: advancing onto the straight segment of length 5
with final velocity 2 publishes timeout ceil(5/2) = 3. -/
theorem C5_witness :
    (advanceSegment trivialLib descListC5 descA 0 stC4).pathManagerStatus.Timeout = 3 := by
  have h := (C5_timeout_law trivialLib descListC5 descA 0 stC4 descA descC5 rfl rfl).1
    (by norm_num [descC5])
  rw [h]
  have hs : spec_pathLength descA.SwitchingLocus descC5
      ((advanceSegment trivialLib descListC5 descA 0 stC4).angularDistanceToComplete_D) = 5 := by
    simp only [spec_pathLength, descC5, descA]
    norm_num
    rw [show (25:ℝ) = 5 ^ 2 by norm_num, Real.sqrt_sq (by norm_num : (0:ℝ) ≤ 5)]
  rw [hs, show descC5.FinalVelocity = 2 from rfl]
  norm_num
  rw [show ⌈(5:ℝ) / 2⌉ = 3 by rw [Int.ceil_eq_iff]; norm_num]
  norm_num

/-- The arc progress tracker stage is the identity on a state whose
current segment is straight (the source skips the whole block when
PathCurvature is 0). -/
theorem updateArcMeasure_zero_curvature (lib : GeometryLib) (pos : ℝ × ℝ)
    (st : PMState) (h : st.pathSegmentDescriptor_current.PathCurvature = 0) :
    updateArcMeasure lib pos st = st := by
  unfold updateArcMeasure
  rw [if_neg (by simp [h])]

/-- The arc progress tracker stage is the identity on a state with no
found arc center (the source gates all accumulation on CENTER_FOUND). -/
theorem updateArcMeasure_no_center (lib : GeometryLib) (pos : ℝ × ℝ)
    (st : PMState) (h : st.arc_has_center = false) :
    updateArcMeasure lib pos st = st := by
  simp [updateArcMeasure, h]

/-- Claim C6: for every advance onto a segment with nonzero curvature
whose arc center cannot be resolved, the published angular distance to
complete is 0, angularDistanceCompleted is 0 and stays 0 on every
subsequent tracking tick (the tracker is gated on a found center, and
no center was stored), and the goal proximity gate passes on every
subsequent tick, so the goal condition evaluator runs immediately and
the segment is treated as a zero length arc instead of stalling. -/
theorem C6_insufficient_radius_degrades (lib : GeometryLib)
    (descriptors : List PathSegmentDescriptorData)
    (junk : PathSegmentDescriptorData) (now : ℕ) (st : PMState)
    (past cur : PathSegmentDescriptorData)
    (hpast : (descriptors.get? st.pathManagerStatus.ActiveSegment).getD junk = past)
    (hcur : (descriptors.get? (st.pathManagerStatus.ActiveSegment + 1)).getD
      st.pathSegmentDescriptor_current = cur)
    (hc : cur.PathCurvature ≠ 0)
    (hfind : lib.find_arc_center past.SwitchingLocus cur.SwitchingLocus
      (1 / cur.PathCurvature) (decide (cur.PathCurvature > 0))
      (decide (cur.ArcRank = ArcRankOption.MINOR)) = none) :
    (advanceSegment lib descriptors junk now st).angularDistanceToComplete_D = 0 ∧
    (advanceSegment lib descriptors junk now st).angularDistanceCompleted_D = 0 ∧
    (advanceSegment lib descriptors junk now st).arc_has_center = false ∧
    (∀ lib2 pos n, trackTrace lib2 pos (advanceSegment lib descriptors junk now st) n =
      advanceSegment lib descriptors junk now st) ∧
    (∀ lib2 pos n, goalProximityGate
      (trackTrace lib2 pos (advanceSegment lib descriptors junk now st) n)) := by
  have hfields := advanceSegment_fields lib descriptors junk now st past cur hpast hcur
  have harc : advArcRes lib past cur = none := by
    unfold advArcRes
    rw [if_pos hc, hfind]
  have hA : (advanceSegment lib descriptors junk now st).angularDistanceToComplete_D = 0 := by
    rw [hfields.1]
    unfold advAngularDistanceToComplete
    rw [if_pos hc, harc]
  have hHC : (advanceSegment lib descriptors junk now st).arc_has_center = false := by
    rw [hfields.2.2.2.2, if_pos hc, harc]
    rfl
  have htrace : ∀ lib2 pos n,
      trackTrace lib2 pos (advanceSegment lib descriptors junk now st) n =
        advanceSegment lib descriptors junk now st := by
    intro lib2 pos n
    induction n with
    | zero => rfl
    | succ n ih =>
        show updateArcMeasure lib2 (pos n)
          (trackTrace lib2 pos (advanceSegment lib descriptors junk now st) n) = _
        rw [ih, updateArcMeasure_no_center lib2 (pos n) _ hHC]
  have hgate : goalProximityGate (advanceSegment lib descriptors junk now st) := by
    unfold goalProximityGate
    rw [hA, show (advanceSegment lib descriptors junk now st).angularDistanceCompleted_D = 0
      from rfl]
    norm_num [ANGULAR_PROXIMITY_THRESHOLD]
  exact ⟨hA, rfl, hHC, htrace, fun lib2 pos n => by rw [htrace lib2 pos n]; exact hgate⟩

/-- Witness for C6: a concrete advance onto the arc descriptor under the
library whose center resolution fails. -/
theorem C6_witness :
    (advanceSegment trivialLib descListC4 descA 0 stC4).angularDistanceToComplete_D = 0 ∧
    (advanceSegment trivialLib descListC4 descA 0 stC4).angularDistanceCompleted_D = 0 ∧
    (advanceSegment trivialLib descListC4 descA 0 stC4).arc_has_center = false ∧
    trackTrace trivialLib (fun _ => (5, 5))
      (advanceSegment trivialLib descListC4 descA 0 stC4) 3 =
      advanceSegment trivialLib descListC4 descA 0 stC4 ∧
    goalProximityGate (trackTrace trivialLib (fun _ => (5, 5))
      (advanceSegment trivialLib descListC4 descA 0 stC4) 3) := by
  have h := C6_insufficient_radius_degrades trivialLib descListC4 descA 0 stC4 descA descArc
    rfl rfl (by norm_num [descArc]) rfl
  exact ⟨h.1, h.2.1, h.2.2.1, h.2.2.2.1 trivialLib _ 3, h.2.2.2.2 trivialLib _ 3⟩

/-- Claim C10: after an advance onto a zero curvature (straight)
segment, angularDistanceToComplete and angularDistanceCompleted are
both exactly 0, the tracking stage leaves the state unchanged on every
later tick of the segment (so both stay 0 for the whole segment), and
the goal proximity gate sign(curvature) * (toComplete - completed) <
30 therefore passes on every tick: the exact goal condition test is
invoked from the very start of the segment, not only near completion. -/
theorem C10_straight_gate_always_open (lib : GeometryLib)
    (descriptors : List PathSegmentDescriptorData)
    (junk : PathSegmentDescriptorData) (now : ℕ) (st : PMState)
    (past cur : PathSegmentDescriptorData)
    (hpast : (descriptors.get? st.pathManagerStatus.ActiveSegment).getD junk = past)
    (hcur : (descriptors.get? (st.pathManagerStatus.ActiveSegment + 1)).getD
      st.pathSegmentDescriptor_current = cur)
    (hstraight : cur.PathCurvature = 0) :
    (advanceSegment lib descriptors junk now st).angularDistanceToComplete_D = 0 ∧
    (advanceSegment lib descriptors junk now st).angularDistanceCompleted_D = 0 ∧
    (∀ lib2 pos n, trackTrace lib2 pos (advanceSegment lib descriptors junk now st) n =
      advanceSegment lib descriptors junk now st) ∧
    (∀ lib2 pos n, goalProximityGate
      (trackTrace lib2 pos (advanceSegment lib descriptors junk now st) n)) := by
  have hfields := advanceSegment_fields lib descriptors junk now st past cur hpast hcur
  have hA : (advanceSegment lib descriptors junk now st).angularDistanceToComplete_D = 0 := by
    rw [hfields.1]
    unfold advAngularDistanceToComplete
    rw [if_neg (by simp [hstraight])]
  have hcurstate :
      (advanceSegment lib descriptors junk now st).pathSegmentDescriptor_current.PathCurvature
        = 0 := by
    rw [hfields.2.2.2.1]
    exact hstraight
  have htrace : ∀ lib2 pos n,
      trackTrace lib2 pos (advanceSegment lib descriptors junk now st) n =
        advanceSegment lib descriptors junk now st := by
    intro lib2 pos n
    induction n with
    | zero => rfl
    | succ n ih =>
        show updateArcMeasure lib2 (pos n)
          (trackTrace lib2 pos (advanceSegment lib descriptors junk now st) n) = _
        rw [ih, updateArcMeasure_zero_curvature lib2 (pos n) _ hcurstate]
  have hgate : goalProximityGate (advanceSegment lib descriptors junk now st) := by
    unfold goalProximityGate
    rw [hA, show (advanceSegment lib descriptors junk now st).angularDistanceCompleted_D = 0
      from rfl]
    norm_num [ANGULAR_PROXIMITY_THRESHOLD]
  exact ⟨hA, rfl, htrace, fun lib2 pos n => by rw [htrace lib2 pos n]; exact hgate⟩

/-- Witness for C10: the concrete advance onto the straight 3-4-5
segment; the trace is evaluated at tick 2. -/
theorem C10_witness :
    (advanceSegment trivialLib descListC5 descA 3 stC4).angularDistanceToComplete_D = 0 ∧
    (advanceSegment trivialLib descListC5 descA 3 stC4).angularDistanceCompleted_D = 0 ∧
    trackTrace trivialLib (fun _ => (7, 2))
      (advanceSegment trivialLib descListC5 descA 3 stC4) 2 =
      advanceSegment trivialLib descListC5 descA 3 stC4 ∧
    goalProximityGate (trackTrace trivialLib (fun _ => (7, 2))
      (advanceSegment trivialLib descListC5 descA 3 stC4) 2) := by
  have h := C10_straight_gate_always_open trivialLib descListC5 descA 3 stC4 descA descC5
    rfl rfl (by norm_num [descC5])
  exact ⟨h.1, h.2.1, h.2.2.1 trivialLib _ 2, h.2.2.2 trivialLib _ 2⟩

/-- The tracker stage never changes the current descriptor or the
center flag. -/
theorem updateArcMeasure_preserves (lib : GeometryLib) (pos : ℝ × ℝ) (st : PMState) :
    (updateArcMeasure lib pos st).pathSegmentDescriptor_current =
      st.pathSegmentDescriptor_current ∧
    (updateArcMeasure lib pos st).arc_has_center = st.arc_has_center := by
  unfold updateArcMeasure
  split_ifs <;> exact ⟨rfl, rfl⟩

/-- On a tracking tick of an arc with a found center whose trim counter
is 0, the mask test hits and the counter is reset to 0 again. -/
theorem updateArcMeasure_trim_reset (lib : GeometryLib) (pos : ℝ × ℝ) (st : PMState)
    (hc : st.pathSegmentDescriptor_current.PathCurvature ≠ 0)
    (hcenter : st.arc_has_center = true)
    (h0 : st.theta_roundoff_trim_count = 0) :
    (updateArcMeasure lib pos st).theta_roundoff_trim_count = 0 := by
  unfold updateArcMeasure
  rw [if_pos hc, hcenter, if_pos rfl, h0]
  rw [if_pos (by decide : (0:ℕ) &&& 0x8F = 0)]

/-- Claim C9: during continuous arc tracking of one segment with a
resolved center, the periodic drift correction executes at a regular
fixed interval: from the boot value 0 of the trim counter, the
correction fires on every single tracking tick (the counter is reset
to 0 inside the firing branch and 0 hits the 0x8F mask), so the number
of ticks between consecutive corrections is the same constant, namely
1, for every pair of consecutive corrections.  The interval is thus
constant as the claim states, though it is 1 tick rather than the 128
samples announced by the source comment. -/
theorem C9_drift_correction_fixed_interval (lib : GeometryLib) (pos : ℕ → ℝ × ℝ)
    (st : PMState)
    (hc : st.pathSegmentDescriptor_current.PathCurvature ≠ 0)
    (hcenter : st.arc_has_center = true)
    (h0 : st.theta_roundoff_trim_count = 0) :
    ∀ n, driftCorrectionFires (trackTrace lib pos st n) ∧
      (trackTrace lib pos st n).theta_roundoff_trim_count = 0 := by
  intro n
  induction n with
  | zero =>
      refine ⟨⟨hc, hcenter, ?_⟩, h0⟩
      show st.theta_roundoff_trim_count &&& 0x8F = 0
      rw [h0]
      decide
  | succ n ih =>
      have hpres := updateArcMeasure_preserves lib (pos n) (trackTrace lib pos st n)
      have htrim := updateArcMeasure_trim_reset lib (pos n) (trackTrace lib pos st n)
        ih.1.1 ih.1.2.1 ih.2
      show driftCorrectionFires (updateArcMeasure lib (pos n) (trackTrace lib pos st n)) ∧
        (updateArcMeasure lib (pos n) (trackTrace lib pos st n)).theta_roundoff_trim_count = 0
      refine ⟨⟨?_, ?_, ?_⟩, htrim⟩
      · rw [hpres.1]
        exact ih.1.1
      · rw [hpres.2]
        exact ih.1.2.1
      · rw [htrim]
        decide

/-- Arc tracking state for the C9 witness: the current segment is the
arc descriptor, a center was found, the trim counter is at its boot
value 0. -/
def stC9 : PMState :=
  { stC1 with
    pathSegmentDescriptor_current := descArc
    arc_has_center := true
    theta_roundoff_trim_count := 0 }

/-- Witness for C9: on the concrete tracking state the correction fires
at tick 2 (as at every tick) and the counter is still 0. -/
theorem C9_witness :
    driftCorrectionFires (trackTrace trivialLib (fun _ => (1, 0)) stC9 2) ∧
    (trackTrace trivialLib (fun _ => (1, 0)) stC9 2).theta_roundoff_trim_count = 0 :=
  C9_drift_correction_fixed_interval trivialLib (fun _ => (1, 0)) stC9
    (show descArc.PathCurvature ≠ 0 by norm_num [descArc]) rfl rfl 2

/-- Claim C7, amended: on every tick of the main loop while a guidance
program is active, at most one of {segment advance, timeout flag
evaluation, overshoot flag evaluation} executes, in that priority
order: a pending advance preempts the timeout check, the expired
timeout preempts the overshoot check, and when the advance flag is
clear, the timeout has not expired and the overshoot timer is not due,
none of the three executes (the tick is idle). -/
theorem C7_dispatch_priority (lib : GeometryLib)
    (settings : PathManagerSettingsData) (airspeeds : FixedWingAirspeedsData)
    (descriptors : List PathSegmentDescriptorData)
    (junk : PathSegmentDescriptorData) (position_NE : ℝ × ℝ)
    (lastSysTime overshootTimer : ℕ) (st : PMState) :
    (pathManagerTickBranch lib settings airspeeds descriptors junk position_NE
        lastSysTime overshootTimer st = TickBranch.advance ↔
      advanceSegmentFlag lib settings airspeeds descriptors junk position_NE st) ∧
    (pathManagerTickBranch lib settings airspeeds descriptors junk position_NE
        lastSysTime overshootTimer st = TickBranch.timeoutFlag ↔
      ¬ advanceSegmentFlag lib settings airspeeds descriptors junk position_NE st ∧
      timeoutExpired (updateArcMeasure lib position_NE st) lastSysTime) ∧
    (pathManagerTickBranch lib settings airspeeds descriptors junk position_NE
        lastSysTime overshootTimer st = TickBranch.overshootFlag ↔
      ¬ advanceSegmentFlag lib settings airspeeds descriptors junk position_NE st ∧
      ¬ timeoutExpired (updateArcMeasure lib position_NE st) lastSysTime ∧
      overshootDue lastSysTime overshootTimer) ∧
    (pathManagerTickBranch lib settings airspeeds descriptors junk position_NE
        lastSysTime overshootTimer st = TickBranch.idle ↔
      ¬ advanceSegmentFlag lib settings airspeeds descriptors junk position_NE st ∧
      ¬ timeoutExpired (updateArcMeasure lib position_NE st) lastSysTime ∧
      ¬ overshootDue lastSysTime overshootTimer) := by
  unfold pathManagerTickBranch
  by_cases h1 : advanceSegmentFlag lib settings airspeeds descriptors junk position_NE st
  · simp [h1]
  · by_cases h2 : timeoutExpired (updateArcMeasure lib position_NE st) lastSysTime
    · simp [h1, h2]
    · by_cases h3 : overshootDue lastSysTime overshootTimer
      · simp [h1, h2, h3]
      · simp [h1, h2, h3]

/-- Counterexample to C7 as stated: a concrete tick with an active
program on which NONE of {segment advance, timeout flag evaluation,
overshoot flag evaluation} executes - the dispatch selects the idle
branch (no advance is pending on the final segment, the segment timer
has not expired, the overshoot timer is not yet due) - so it is not
the case that exactly one of the three is evaluated on every tick. -/
theorem C7_counterexample :
    pathManagerTickBranch trivialLib settingsHP air10 descListC1 descA (0, 0) 500 0 stC1 =
      TickBranch.idle ∧
    pathManagerTickBranch trivialLib settingsHP air10 descListC1 descA (0, 0) 500 0 stC1 ≠
      TickBranch.advance ∧
    pathManagerTickBranch trivialLib settingsHP air10 descListC1 descA (0, 0) 500 0 stC1 ≠
      TickBranch.timeoutFlag ∧
    pathManagerTickBranch trivialLib settingsHP air10 descListC1 descA (0, 0) 500 0 stC1 ≠
      TickBranch.overshootFlag := by
  have hu : updateArcMeasure trivialLib (0, 0) stC1 = stC1 :=
    updateArcMeasure_zero_curvature trivialLib (0, 0) stC1
      (show descB.PathCurvature = 0 by norm_num [descB])
  have hflag : ¬ advanceSegmentFlag trivialLib settingsHP air10 descListC1 descA (0, 0) stC1 := by
    unfold advanceSegmentFlag
    rw [hu]
    rintro ⟨-, hck⟩
    rw [show checkGoalCondition trivialLib settingsHP air10 descListC1 descA (0, 0) stC1 =
      false from rfl] at hck
    exact Bool.false_ne_true hck
  have htimeout : ¬ timeoutExpired (updateArcMeasure trivialLib (0, 0) stC1) 500 := by
    rw [hu]
    unfold timeoutExpired
    norm_num [stC1]
  have hover : ¬ overshootDue 500 0 := by
    unfold overshootDue
    norm_num
  have hb : pathManagerTickBranch trivialLib settingsHP air10 descListC1 descA (0, 0)
      500 0 stC1 = TickBranch.idle := by
    unfold pathManagerTickBranch
    rw [if_neg hflag, if_neg htimeout, if_neg hover]
  exact ⟨hb, by rw [hb]; decide, by rw [hb]; decide, by rw [hb]; decide⟩

/-- The overshoot dot product written as the source computes it (margin
factor speed * 5, magnitude over three components with zero third)
equals the spec formulation (margin 5 * speed, planar magnitude). -/
theorem overshoot_dot_eq (cn ce rn re pn pe v : ℝ) :
    (pn - (cn + (cn - rn) / Real.sqrt ((cn - rn) ^ 2 + (ce - re) ^ 2 + 0 ^ 2) * v * 5)) *
        (cn - rn) +
      (pe - (ce + (ce - re) / Real.sqrt ((cn - rn) ^ 2 + (ce - re) ^ 2 + 0 ^ 2) * v * 5)) *
        (ce - re) =
    (pn - (cn + (cn - rn) / Real.sqrt ((cn - rn) ^ 2 + (ce - re) ^ 2) * (5 * v))) *
        (cn - rn) +
      (pe - (ce + (ce - re) / Real.sqrt ((cn - rn) ^ 2 + (ce - re) ^ 2) * (5 * v))) *
        (ce - re) := by
  rw [show (cn - rn) ^ 2 + (ce - re) ^ 2 + 0 ^ 2 = (cn - rn) ^ 2 + (ce - re) ^ 2 by ring]
  ring

/-- Claim C8: on a straight (zero curvature) segment the overshoot
monitor extends the target from the previous locus along the unit path
direction by five seconds of travel at the reference airspeed and
fires exactly when the dot product of (vehicle position minus extended
target) with the path direction vector is positive; checkOvershoot
publishes Status=Overshoot when the test fires and changes nothing
otherwise; concretely, with previous locus (0,0), target (100,0) and
reference airspeed 10 the extended target is (150,0), a vehicle at
(200,0) fires the test and a vehicle at (120,0) does not. -/
theorem C8_overshoot_monitor :
    (∀ (airspeeds : FixedWingAirspeedsData) (p : ℝ × ℝ) (st : PMState),
      st.pathSegmentDescriptor_current.PathCurvature = 0 →
      (overshootTestFires airspeeds p st ↔
        spec_overshootCondition
          (st.previousLocus.Position.north, st.previousLocus.Position.east)
          (st.pathSegmentDescriptor_current.SwitchingLocus.north,
           st.pathSegmentDescriptor_current.SwitchingLocus.east)
          p airspeeds.BestClimbRateSpeed)) ∧
    (∀ (airspeeds : FixedWingAirspeedsData) (p : ℝ × ℝ) (st : PMState),
      overshootTestFires airspeeds p st →
      (checkOvershoot airspeeds p st).pathManagerStatus.Status = PMStatusOption.Overshoot) ∧
    (∀ (airspeeds : FixedWingAirspeedsData) (p : ℝ × ℝ) (st : PMState),
      ¬ overshootTestFires airspeeds p st → checkOvershoot airspeeds p st = st) ∧
    spec_extendedTarget (0, 0) (100, 0) 10 = (150, 0) ∧
    overshootTestFires air10 (200, 0) stC1 ∧
    ¬ overshootTestFires air10 (120, 0) stC1 := by
  have hsqrt : Real.sqrt (10000:ℝ) = 100 := by
    rw [show (10000:ℝ) = 100 ^ 2 by norm_num,
      Real.sqrt_sq (by norm_num : (0:ℝ) ≤ 100)]
  refine ⟨?_, ?_, ?_, ?_, ?_, ?_⟩
  · intro airspeeds p st h
    simp only [overshootTestFires, spec_overshootCondition, spec_extendedTarget, h,
      true_and]
    rw [overshoot_dot_eq]
  · intro airspeeds p st hfire
    unfold checkOvershoot
    rw [if_pos hfire]
  · intro airspeeds p st hfire
    unfold checkOvershoot
    rw [if_neg hfire]
  · simp only [spec_extendedTarget]
    norm_num [hsqrt]
  · refine ⟨rfl, ?_⟩
    simp only [stC1, descB, air10]
    norm_num [hsqrt]
  · rintro ⟨-, hdot⟩
    simp only [stC1, descB, air10] at hdot
    norm_num [hsqrt] at hdot

/-- Witness for C8: at the concrete overshooting position (200, 0) the
monitor publishes Status=Overshoot. -/
theorem C8_witness :
    (checkOvershoot air10 (200, 0) stC1).pathManagerStatus.Status =
      PMStatusOption.Overshoot :=
  C8_overshoot_monitor.2.1 air10 (200, 0) stC1 C8_overshoot_monitor.2.2.2.2.1
